import Mathlib

/-!
# SecondaryVertexProducer

A shallow embedding of `RecoBTag/SecondaryVertex/plugins/SecondaryVertexProducer.cc`:
the sort-criterion lookup `getSortCriterium`, the two function objects `SVBuilder`
and `SVFilter`, and `SecondaryVertexProducer::produce`, the loop over the jets of
an event that selects tracks, fits and filters secondary vertices, picks the best
one and fills one `SecondaryVertexTagInfo` per jet.

Classes whose headers are not part of the sources at hand (`reco::Vertex`,
`TrackIPTagInfo`, `SecondaryVertexTagInfo`, ...) are given as structures holding
the members `produce` reads or writes.  Scalars (`double`) are an arbitrary type
`R`; covariance matrices, impact-parameter records and transient tracks are
arbitrary types `E`, `IPD` and `TT`.
-/

namespace SVP

/-! ## Data model -/

/-- A `reco::TrackRef`: the key of a track in the event's track collection.
Two references are equal when their keys are. -/
abbrev TrackRef := Nat

/-- The enumeration `TrackIPTagInfo::SortCriteria`. -/
inductive SortCriteria where
  | IP3DSig
  | Prob3D
  | IP2DSig
  | Prob2D
  | IP2DValue
deriving DecidableEq, Repr

/-- A `cms::Exception`: its category and the message streamed into it. -/
structure CmsException where
  category : String
  message : String
deriving DecidableEq, Repr

/-- The `VertexException` of the vertex reconstruction package, the one exception
type the `try` block of `produce` catches. -/
structure VertexException where
  message : String
deriving DecidableEq, Repr

/-- A `GlobalVector` (also used for `GlobalPoint`): three scalar components. -/
structure GlobalVector (R : Type) where
  x : R
  y : R
  z : R
deriving DecidableEq, Repr

/-- A `Measurement1D`: a value with its error. -/
structure Measurement1D (R : Type) where
  value : R
  error : R
deriving DecidableEq, Repr

/-- A `reco::Vertex`: position, covariance, fit quality and the references of the
tracks that belong to it. -/
structure Vertex (R E : Type) where
  x : R
  y : R
  z : R
  covariance : E
  chi2 : R
  ndof : R
  tracks : List TrackRef
deriving DecidableEq, Repr

/-- A `reco::SecondaryVertex`: a `reco::Vertex` together with its flight distances
in the transverse plane and in space. -/
structure SecondaryVertex (R E : Type) extends Vertex R E where
  dist2d : Measurement1D R
  dist3d : Measurement1D R
deriving DecidableEq, Repr

/-- A `reco::BeamSpot`, as far as `produce` reads it. -/
structure BeamSpot (R E : Type) where
  position : GlobalVector R
  covariance3D : E

/-- A `reco::Jet`, as far as `produce` reads it. -/
structure Jet (R : Type) where
  momentum : GlobalVector R

/-- The enumeration `SecondaryVertexTagInfo::TrackData::Status`. -/
inductive Status where
  | trackSelected
  | trackUsedForVertexFit
  | trackAssociatedToVertex
deriving DecidableEq, Repr

/-- The structure `SecondaryVertexTagInfo::TrackData`. -/
structure TrackData where
  svStatus : Status
deriving DecidableEq, Repr

/-- Modelled from the spec: `TrackData::usedForVertexFit()`, declared in
`DataFormats/BTauReco/interface/SecondaryVertexTagInfo.h`, which is not at hand.
The status only ever moves upwards (selected, used for the fit, associated to the
vertex), so a track counts as used for the fit from `trackUsedForVertexFit` on. -/
def TrackData.usedForVertexFit (d : TrackData) : Bool :=
  match d.svStatus with
  | .trackSelected => false
  | .trackUsedForVertexFit => true
  | .trackAssociatedToVertex => true

/-- The pair `SecondaryVertexTagInfo::IndexedTrackData`: a track index and the
track's data. -/
abbrev IndexedTrackData := Nat × TrackData

/-- The structure `SecondaryVertexTagInfo::VertexData`. -/
structure VertexData (R E : Type) where
  vertex : SecondaryVertex R E
  dist2d : Measurement1D R
  dist3d : Measurement1D R
  direction : GlobalVector R
deriving DecidableEq, Repr

/-- A `reco::SecondaryVertexTagInfo`, built from the four constructor arguments
`produce` passes: the track table, the data of the chosen vertex (none or one),
the number of vertex candidates and the reference to the jet's `TrackIPTagInfo`
(its position in the input collection). -/
structure SecondaryVertexTagInfo (R E : Type) where
  trackData : List IndexedTrackData
  svData : List (VertexData R E)
  vertexCandidates : Nat
  trackIPTagInfoRef : Nat
deriving DecidableEq, Repr

/-- A `reco::TrackIPTagInfo`, as far as `produce` reads it: the jet, the optional
reference to the primary vertex, the selected tracks, their impact-parameter
records (record `j` belongs to selected track `j`) and the method
`sortedIndexes`, whose body is not at hand. -/
structure TrackIPTagInfo (R E IPD : Type) where
  jet : Jet R
  primaryVertex : Option (Vertex R E)
  selectedTracks : List TrackRef
  impactParameterData : List IPD
  sortedIndexes : SortCriteria → List Nat

/-- Modelled from the spec: `TrackIPTagInfo::sortedTracks`, declared in
`DataFormats/BTauReco/interface/TrackIPTagInfo.h`, which is not at hand: the
jet's track list put into the order of the given indices, entry `i` of the result
being selected track `indexes[i]`.  An index past the end of the track list is
undefined in the source and reads the null reference here. -/
def TrackIPTagInfo.sortedTracks {R E IPD : Type} (info : TrackIPTagInfo R E IPD)
    (indexes : List Nat) : List TrackRef :=
  indexes.map (fun j => info.selectedTracks.getD j default)

/-! ## Configuration -/

/-- The function `getSortCriterium`. -/
def getSortCriterium (name : String) : Except CmsException SortCriteria :=
  if name = "sip3dSig" then
    .ok .IP3DSig
  else if name = "prob3d" then
    .ok .Prob3D
  else if name = "sip2dSig" then
    .ok .IP2DSig
  else if name = "prob2d" then
    .ok .Prob2D
  else if name = "sip2dVal" then
    .ok .IP2DValue
  else
    .error ⟨"InvalidArgument",
      "Identifier \"" ++ name ++ "\" does not represent a valid track sorting criterium.\n"⟩

/-- The data members of `SecondaryVertexProducer` that `produce` uses.  The
selectors and filters are the call operators of the configured objects;
`vertexReco` is `ConfigurableVertexReconstructor(vtxRecoPSet).vertices`, which
either returns the fitted vertices (already seen as `reco::Vertex`, the type
`SVBuilder` takes them at) or throws a `VertexException`. -/
structure SecondaryVertexProducer (R E IPD TT : Type) where
  sortCriterium : SortCriteria
  trackSelector : TrackRef → IPD → Bool
  vertexReco : List TT → Except VertexException (List (Vertex R E))
  withPVError : Bool
  vertexFilter : Vertex R E → SecondaryVertex R E → GlobalVector R → Bool
  vertexSelector : List (SecondaryVertex R E) → Option (SecondaryVertex R E)

/-- The parameter set handed to the constructor: the sort criterion by name and
the already configured collaborators. -/
structure ParameterSet (R E IPD TT : Type) where
  trackSort : String
  trackSelection : TrackRef → IPD → Bool
  vertexReco : List TT → Except VertexException (List (Vertex R E))
  usePVError : Bool
  vertexCuts : Vertex R E → SecondaryVertex R E → GlobalVector R → Bool
  vertexSelection : List (SecondaryVertex R E) → Option (SecondaryVertex R E)

/-- The constructor `SecondaryVertexProducer::SecondaryVertexProducer`: it fails
with the exception of `getSortCriterium` when `trackSort` names no criterion. -/
def SecondaryVertexProducer.new {R E IPD TT : Type} (params : ParameterSet R E IPD TT) :
    Except CmsException (SecondaryVertexProducer R E IPD TT) :=
  match getSortCriterium params.trackSort with
  | .error e => .error e
  | .ok c =>
    .ok { sortCriterium := c
          trackSelector := params.trackSelection
          vertexReco := params.vertexReco
          withPVError := params.usePVError
          vertexFilter := params.vertexCuts
          vertexSelector := params.vertexSelection }

/-! ## Collaborators of `produce` -/

/-- What `produce` uses from outside the producer object and the event: the
`TransientTrackBuilder` of the event setup, the default-constructed `BeamSpot`,
and the constructor `SecondaryVertex(pv, sv, direction, withPVError)`.  The
constructor either returns the vertex or throws; its exception is taken to be a
`VertexException`, the type the enclosing `try` block handles. -/
structure Collaborators (R E TT : Type) where
  trackBuilder : TrackRef → TT
  beamSpot : BeamSpot R E
  secondaryVertex :
    Vertex R E → Vertex R E → GlobalVector R → Bool → Except VertexException (SecondaryVertex R E)

/-- The event as `produce` sees it: the `TrackIPTagInfoCollection` found under
`trackIPTagInfoLabel`, and the `SecondaryVertexTagInfoCollection` put into it (none
before `event.put`). -/
structure Event (R E IPD : Type) where
  trackIPTagInfos : List (TrackIPTagInfo R E IPD)
  secondaryVertexTagInfos : Option (List (SecondaryVertexTagInfo R E))

/-- The call `event.put(tagInfos)`. -/
def Event.put {R E IPD : Type} (event : Event R E IPD)
    (tagInfos : List (SecondaryVertexTagInfo R E)) : Event R E IPD :=
  { event with secondaryVertexTagInfos := some tagInfos }

/-! ## The function objects `SVBuilder` and `SVFilter` -/

/-- The function object `SVBuilder`. -/
structure SVBuilder (R E : Type) where
  pv : Vertex R E
  direction : GlobalVector R
  withPVError : Bool

/-- The call operator `SVBuilder::operator ()`. -/
def SVBuilder.call {R E TT : Type} (lib : Collaborators R E TT) (b : SVBuilder R E)
    (sv : Vertex R E) : Except VertexException (SecondaryVertex R E) :=
  lib.secondaryVertex b.pv sv b.direction b.withPVError

/-- The function object `SVFilter`. -/
structure SVFilter (R E : Type) where
  filter : Vertex R E → SecondaryVertex R E → GlobalVector R → Bool
  pv : Vertex R E
  direction : GlobalVector R

/-- The call operator `SVFilter::operator ()`: true for the vertices to remove. -/
def SVFilter.call {R E : Type} (f : SVFilter R E) (sv : SecondaryVertex R E) : Bool :=
  !f.filter f.pv sv f.direction

/-- The algorithm `std::remove_copy_if` reading through a transform iterator of
`f` and writing through `std::back_inserter(out)`: every element is transformed,
and appended to `out` unless `pred` holds of it.  When `f` throws, the exception
leaves the algorithm; the second component is the output container as it stands
at that point (or at the end). -/
def removeCopyIf {α β ε : Type} (f : α → Except ε β) (pred : β → Bool) :
    List α → List β → Except ε Unit × List β
  | [], out => (.ok (), out)
  | a :: rest, out =>
    match f a with
    | .error e => (.error e, out)
    | .ok b =>
      if pred b then removeCopyIf f pred rest out
      else removeCopyIf f pred rest (out ++ [b])

/-! ## `SecondaryVertexProducer::produce` -/

section Produce

variable {R E IPD TT : Type}

/-- The exception thrown when a track of the chosen vertex is not among the jet's
tracks. -/
def trackNotFound : CmsException :=
  ⟨"TrackNotFound", "Could not find track in secondary vertex in origina tracks.\n"⟩

/-- The fallback primary vertex
`Vertex beamSpotPV(beamSpot.position(), beamSpot.covariance3D(), -1, -1, 0)`. -/
def beamSpotPV [Neg R] [One R] (lib : Collaborators R E TT) : Vertex R E :=
  { x := lib.beamSpot.position.x
    y := lib.beamSpot.position.y
    z := lib.beamSpot.position.z
    covariance := lib.beamSpot.covariance3D
    chi2 := -1
    ndof := -1
    tracks := [] }

/-- The primary vertex `pv` of a jet: the referenced one when the reference is
non-null, else `beamSpotPV`. -/
def primaryVertex [Neg R] [One R] (lib : Collaborators R E TT)
    (jet : TrackIPTagInfo R E IPD) : Vertex R E :=
  match jet.primaryVertex with
  | some v => v
  | none => beamSpotPV lib

/-- The jet direction `jetDir`, built from the three components of the jet
momentum. -/
def jetDir (jet : TrackIPTagInfo R E IPD) : GlobalVector R :=
  ⟨jet.jet.momentum.x, jet.jet.momentum.y, jet.jet.momentum.z⟩

/-- The index list `indices = iterJets->sortedIndexes(sortCriterium)`. -/
def indices (self : SecondaryVertexProducer R E IPD TT) (jet : TrackIPTagInfo R E IPD) :
    List Nat :=
  jet.sortedIndexes self.sortCriterium

/-- The sorted track list `trackRefs = iterJets->sortedTracks(indices)`. -/
def trackRefs (self : SecondaryVertexProducer R E IPD TT) (jet : TrackIPTagInfo R E IPD) :
    List TrackRef :=
  jet.sortedTracks (indices self jet)

/-- The loop "build transient tracks": for `i` below `n` (the size of `indices`)
it appends to `trackData` the entry with index `i` and the status the track
selector gives for `trackRefs[i]` and `ipData[i]`, and to `tracks` the transient
track of `trackRefs[i]`.  A read past the end of a vector is undefined in the
source and yields a default value here. -/
def buildTracks [Inhabited IPD] (self : SecondaryVertexProducer R E IPD TT)
    (lib : Collaborators R E TT) (trackRefs : List TrackRef) (ipData : List IPD) (n : Nat) :
    List IndexedTrackData × List TT :=
  (List.range n).foldl
    (fun st i =>
      let trackRef := trackRefs.getD i default
      (st.1 ++ [(i, TrackData.mk
          (if self.trackSelector trackRef (ipData.getD i default)
            then Status.trackUsedForVertexFit
            else Status.trackSelected))],
       st.2 ++ [lib.trackBuilder trackRef]))
    ([], [])

/-- The loop "give fitter the selected tracks": the transient tracks at the
positions whose entry of `trackData` is used for the vertex fit, in order. -/
def fitTracks (trackData : List IndexedTrackData) (tracks : List TT) : List TT :=
  (List.range trackData.length).foldl
    (fun acc i =>
      match trackData[i]?, tracks[i]? with
      | some d, some t => if d.2.usedForVertexFit then acc ++ [t] else acc
      | _, _ => acc)
    []

/-- The `try` block with its `catch`: the value of `SVs` after it.  A
`VertexException` of the fit, or of the construction of a secondary vertex inside
`std::remove_copy_if`, ends the block; `SVs` keeps what had been appended. -/
def fitVertices (self : SecondaryVertexProducer R E IPD TT) (lib : Collaborators R E TT)
    (pv : Vertex R E) (jetDir : GlobalVector R)
    (trackData : List IndexedTrackData) (tracks : List TT) : List (SecondaryVertex R E) :=
  match self.vertexReco (fitTracks trackData tracks) with
  | .error _ => []
  | .ok fittedSVs =>
    let svBuilder : SVBuilder R E := ⟨pv, jetDir, self.withPVError⟩
    let svFilter : SVFilter R E := ⟨self.vertexFilter, pv, jetDir⟩
    (removeCopyIf (svBuilder.call lib) svFilter.call fittedSVs []).2

/-- The assignment `trackData[index].second.svStatus = status`. -/
def setSvStatus (status : Status) : Nat → List IndexedTrackData → List IndexedTrackData
  | _, [] => []
  | 0, d :: ds => (d.1, { d.2 with svStatus := status }) :: ds
  | index + 1, d :: ds => d :: setSvStatus status index ds

/-- The loop "mark tracks successfully used in vertex fit" over the tracks of the
best vertex: each is looked up in `trackRefs` with `std::find`; when it is not
found `TrackNotFound` is thrown, else the entry at the position found becomes
`trackAssociatedToVertex`. -/
def markTracks (trackRefs : List TrackRef) :
    List TrackRef → List IndexedTrackData → Except CmsException (List IndexedTrackData)
  | [], trackData => .ok trackData
  | t :: rest, trackData =>
    let pos := trackRefs.indexOf t
    if pos = trackRefs.length then
      .error trackNotFound
    else
      markTracks trackRefs rest (setSvStatus .trackAssociatedToVertex pos trackData)

/-- The track table of a jet as the first loop leaves it. -/
def initialTrackData [Inhabited IPD] (self : SecondaryVertexProducer R E IPD TT)
    (lib : Collaborators R E TT) (jet : TrackIPTagInfo R E IPD) : List IndexedTrackData :=
  (buildTracks self lib (trackRefs self jet) jet.impactParameterData (indices self jet).length).1

/-- The transient tracks of a jet as the first loop leaves them. -/
def transientTracks [Inhabited IPD] (self : SecondaryVertexProducer R E IPD TT)
    (lib : Collaborators R E TT) (jet : TrackIPTagInfo R E IPD) : List TT :=
  (buildTracks self lib (trackRefs self jet) jet.impactParameterData (indices self jet).length).2

/-- The vector `SVs` of a jet after the `try` block. -/
def SVs [Neg R] [One R] [Inhabited IPD] (self : SecondaryVertexProducer R E IPD TT)
    (lib : Collaborators R E TT) (jet : TrackIPTagInfo R E IPD) : List (SecondaryVertex R E) :=
  fitVertices self lib (primaryVertex lib jet) (jetDir jet)
    (initialTrackData self lib jet) (transientTracks self lib jet)

/-- The pointer `bestSV = vertexSelector(SVs)` of a jet (none for the null
pointer). -/
def bestSV [Neg R] [One R] [Inhabited IPD] (self : SecondaryVertexProducer R E IPD TT)
    (lib : Collaborators R E TT) (jet : TrackIPTagInfo R E IPD) : Option (SecondaryVertex R E) :=
  self.vertexSelector (SVs self lib jet)

/-- The body of the loop over the jets, for the jet at position `idx` of the
input collection: the tag info pushed back, or the exception thrown. -/
def processJet [Sub R] [Neg R] [One R] [Inhabited IPD]
    (self : SecondaryVertexProducer R E IPD TT) (lib : Collaborators R E TT)
    (jet : TrackIPTagInfo R E IPD) (idx : Nat) :
    Except CmsException (SecondaryVertexTagInfo R E) :=
  let pv := primaryVertex lib jet
  let trackData := initialTrackData self lib jet
  let SVs := SVs self lib jet
  match bestSV self lib jet with
  | none => .ok ⟨trackData, [], SVs.length, idx⟩
  | some best =>
    let svData : List (VertexData R E) :=
      [{ vertex := best
         dist2d := best.dist2d
         dist3d := best.dist3d
         direction := ⟨best.x - pv.x, best.y - pv.y, best.z - pv.z⟩ }]
    match markTracks (trackRefs self jet) best.tracks trackData with
    | .error e => .error e
    | .ok trackData => .ok ⟨trackData, svData, SVs.length, idx⟩

/-- The loop over the jets from position `idx` on, `tagInfos` holding the tag
infos pushed back so far. -/
def produceLoop [Sub R] [Neg R] [One R] [Inhabited IPD]
    (self : SecondaryVertexProducer R E IPD TT) (lib : Collaborators R E TT) :
    List (TrackIPTagInfo R E IPD) → Nat → List (SecondaryVertexTagInfo R E) →
      Except CmsException (List (SecondaryVertexTagInfo R E))
  | [], _, tagInfos => .ok tagInfos
  | jet :: rest, idx, tagInfos =>
    match processJet self lib jet idx with
    | .error e => .error e
    | .ok tagInfo => produceLoop self lib rest (idx + 1) (tagInfos ++ [tagInfo])

/-- The method `SecondaryVertexProducer::produce`: whether it returned or threw,
and the event afterwards.  The collection is put into the event after the loop;
an exception leaves the event as it was. -/
def produce [Sub R] [Neg R] [One R] [Inhabited IPD]
    (self : SecondaryVertexProducer R E IPD TT) (lib : Collaborators R E TT)
    (event : Event R E IPD) : Except CmsException Unit × Event R E IPD :=
  match produceLoop self lib event.trackIPTagInfos 0 [] with
  | .error e => (.error e, event)
  | .ok tagInfos => (.ok (), event.put tagInfos)

end Produce

/-! ## Auxiliary definitions -/

section Auxiliary

variable {R E IPD TT : Type}

/-- The status the first loop writes at position `i`. -/
def statusAt [Inhabited IPD] (self : SecondaryVertexProducer R E IPD TT)
    (trackRefs : List TrackRef) (ipData : List IPD) (i : Nat) : Status :=
  if self.trackSelector (trackRefs.getD i default) (ipData.getD i default)
    then Status.trackUsedForVertexFit
    else Status.trackSelected

end Auxiliary

/-- Whether a transformation returns (rather than throws) on an input. -/
def returns {α β ε : Type} (f : α → Except ε β) (a : α) : Bool :=
  match f a with
  | .ok _ => true
  | .error _ => false

/-- The value a transformation returns on an input, when it returns. -/
def valueOf {α β ε : Type} (f : α → Except ε β) (a : α) : Option β :=
  match f a with
  | .ok b => some b
  | .error _ => none

/-- Position `i` is the first position of `t` in `l`. -/
def IsFirstPosition (l : List TrackRef) (t : TrackRef) (i : Nat) : Prop :=
  l[i]? = some t ∧ ∀ j, j < i → l[j]? ≠ some t

deriving instance DecidableEq for Except

/-! ## A concrete setting

Scalars are integers, a covariance is reduced to whether it is positive definite,
an impact-parameter record to its significance, a transient track to the track it
was built from. -/

namespace Example

/-- A vertex at the given position. -/
def vertexAt (x y z : Int) (positiveDefinite : Bool) (tracks : List TrackRef) :
    Vertex Int Bool :=
  { x := x, y := y, z := z, covariance := positiveDefinite, chi2 := 0, ndof := 1,
    tracks := tracks }

/-- Collaborators: the secondary-vertex constructor throws on a covariance that is
not positive definite. -/
def lib : Collaborators Int Bool Nat :=
  { trackBuilder := fun t => t
    beamSpot := ⟨⟨0, 0, 0⟩, true⟩
    secondaryVertex := fun pv sv _ _ =>
      if sv.covariance then
        .ok { toVertex := sv
              dist2d := ⟨sv.x - pv.x, 1⟩
              dist3d := ⟨sv.z - pv.z, 1⟩ }
      else
        .error ⟨"covariance not positive definite"⟩ }

/-- A producer around a given vertex reconstructor: tracks qualify from
significance 5 on, vertices pass the filter with at least two tracks, the first
candidate is the best. -/
def producer (vertexReco : List Nat → Except VertexException (List (Vertex Int Bool))) :
    SecondaryVertexProducer Int Bool Nat Nat :=
  { sortCriterium := .IP3DSig
    trackSelector := fun _ ip => decide (5 ≤ ip)
    vertexReco := vertexReco
    withPVError := true
    vertexFilter := fun _ sv _ => decide (2 ≤ sv.tracks.length)
    vertexSelector := fun svs => svs.head? }

/-- A reconstructor that needs two tracks and fits one vertex from all of them. -/
def fitOne (tracks : List Nat) : Except VertexException (List (Vertex Int Bool)) :=
  if tracks.length < 2 then .error ⟨"fewer than two significant tracks"⟩
  else .ok [vertexAt 1 2 3 true tracks]

/-- A reconstructor that returns two vertices, the second with a single track. -/
def fitTwo (tracks : List Nat) : Except VertexException (List (Vertex Int Bool)) :=
  .ok [vertexAt 1 2 3 true tracks, vertexAt 4 5 6 true (tracks.take 1)]

/-- A reconstructor whose first vertex has a degenerate covariance (not positive
  definite) and whose second vertex is fine. -/
def fitBadThenGood (tracks : List Nat) : Except VertexException (List (Vertex Int Bool)) :=
  .ok [vertexAt 1 2 3 false tracks, vertexAt 4 5 6 true tracks]

/-- A reconstructor returning a good vertex, then a degenerate one, then a good
one. -/
def fitGoodBadGood (tracks : List Nat) : Except VertexException (List (Vertex Int Bool)) :=
  .ok [vertexAt 1 2 3 true tracks, vertexAt 0 0 0 false tracks, vertexAt 4 5 6 true tracks]

/-- A reconstructor whose vertex names tracks 10 and 11 whatever it was given. -/
def fitForeign (_ : List Nat) : Except VertexException (List (Vertex Int Bool)) :=
  .ok [vertexAt 1 2 3 true [10, 11]]

/-- A reconstructor whose vertex names a track 99. -/
def fitUnknown (_ : List Nat) : Except VertexException (List (Vertex Int Bool)) :=
  .ok [vertexAt 1 2 3 true [10, 99]]

/-- A jet with tracks 10 and 11 of significance 1 and 9, sorted by decreasing
significance, without primary vertex. -/
def jetSwapped : TrackIPTagInfo Int Bool Nat :=
  { jet := ⟨⟨1, 0, 0⟩⟩
    primaryVertex := none
    selectedTracks := [10, 11]
    impactParameterData := [1, 9]
    sortedIndexes := fun _ => [1, 0] }

/-- A jet with tracks 10, 11, 12 of significance 9, 8, 1, already in sorted
order, with a primary vertex at (1, 1, 1). -/
def jetThree : TrackIPTagInfo Int Bool Nat :=
  { jet := ⟨⟨0, 1, 0⟩⟩
    primaryVertex := some (vertexAt 1 1 1 true [])
    selectedTracks := [10, 11, 12]
    impactParameterData := [9, 8, 1]
    sortedIndexes := fun _ => [0, 1, 2] }

/-- A jet with tracks 10 and 11 of significance 9 and 1: one track qualifies. -/
def jetSingle : TrackIPTagInfo Int Bool Nat :=
  { jet := ⟨⟨0, 0, 1⟩⟩
    primaryVertex := none
    selectedTracks := [10, 11]
    impactParameterData := [9, 1]
    sortedIndexes := fun _ => [0, 1] }

/-- An event with a degenerate jet between two jets that give a vertex. -/
def event : Event Int Bool Nat :=
  { trackIPTagInfos := [jetThree, jetSingle, jetThree]
    secondaryVertexTagInfos := none }

end Example

/-! ## Auxiliary facts -/

section Lemmas

variable {R E IPD TT : Type}

theorem foldl_push_pair {α β γ : Type} (f : γ → α) (g : γ → β) (l : List γ)
    (a : List α) (b : List β) :
    l.foldl (fun st i => (st.1 ++ [f i], st.2 ++ [g i])) (a, b)
      = (a ++ l.map f, b ++ l.map g) := by
  induction l generalizing a b with
  | nil => simp
  | cons c l ih => simp [List.foldl_cons, ih]

theorem buildTracks_eq [Inhabited IPD] (self : SecondaryVertexProducer R E IPD TT)
    (lib : Collaborators R E TT) (trackRefs : List TrackRef) (ipData : List IPD) (n : Nat) :
    buildTracks self lib trackRefs ipData n
      = ((List.range n).map (fun i => (i, TrackData.mk (statusAt self trackRefs ipData i))),
         (List.range n).map (fun i => lib.trackBuilder (trackRefs.getD i default))) := by
  unfold buildTracks
  have h := foldl_push_pair
    (fun i => (i, TrackData.mk (statusAt self trackRefs ipData i)))
    (fun i => lib.trackBuilder (trackRefs.getD i default)) (List.range n) [] []
  simpa [statusAt] using h

theorem trackRefs_length (self : SecondaryVertexProducer R E IPD TT)
    (jet : TrackIPTagInfo R E IPD) :
    (trackRefs self jet).length = (indices self jet).length := by
  simp [trackRefs, TrackIPTagInfo.sortedTracks]

theorem initialTrackData_eq [Inhabited IPD] (self : SecondaryVertexProducer R E IPD TT)
    (lib : Collaborators R E TT) (jet : TrackIPTagInfo R E IPD) :
    initialTrackData self lib jet
      = (List.range (trackRefs self jet).length).map
          (fun i => (i, TrackData.mk (statusAt self (trackRefs self jet) jet.impactParameterData i))) := by
  simp [initialTrackData, buildTracks_eq, trackRefs_length]

theorem initialTrackData_length [Inhabited IPD] (self : SecondaryVertexProducer R E IPD TT)
    (lib : Collaborators R E TT) (jet : TrackIPTagInfo R E IPD) :
    (initialTrackData self lib jet).length = (trackRefs self jet).length := by
  simp [initialTrackData_eq]

theorem initialTrackData_getElem? [Inhabited IPD] (self : SecondaryVertexProducer R E IPD TT)
    (lib : Collaborators R E TT) (jet : TrackIPTagInfo R E IPD) (i : Nat) (d : IndexedTrackData)
    (h : (initialTrackData self lib jet)[i]? = some d) :
    i < (trackRefs self jet).length ∧
      d = (i, TrackData.mk (statusAt self (trackRefs self jet) jet.impactParameterData i)) := by
  rw [initialTrackData_eq] at h
  rw [List.getElem?_eq_some_iff] at h
  obtain ⟨hi, h⟩ := h
  simp at hi
  simp at h
  exact ⟨hi, h.symm⟩

theorem statusAt_ne_associated [Inhabited IPD] (self : SecondaryVertexProducer R E IPD TT)
    (trackRefs : List TrackRef) (ipData : List IPD) (i : Nat) :
    statusAt self trackRefs ipData i ≠ Status.trackAssociatedToVertex := by
  unfold statusAt
  split <;> simp

/-! ### `setSvStatus` and `markTracks` -/

theorem setSvStatus_length (s : Status) (n : Nat) (td : List IndexedTrackData) :
    (setSvStatus s n td).length = td.length := by
  induction td generalizing n with
  | nil => simp [setSvStatus]
  | cons d ds ih => cases n <;> simp [setSvStatus, ih]

theorem setSvStatus_getElem? (s : Status) (n : Nat) (td : List IndexedTrackData) (i : Nat) :
    (setSvStatus s n td)[i]?
      = if i = n then td[i]?.map (fun d => (d.1, TrackData.mk s)) else td[i]? := by
  induction td generalizing n i with
  | nil => simp [setSvStatus]
  | cons d ds ih =>
    cases n with
    | zero =>
      cases i with
      | zero => simp [setSvStatus]
      | succ j => simp [setSvStatus]
    | succ m =>
      cases i with
      | zero => simp [setSvStatus]
      | succ j => simp [setSvStatus, ih]

end Lemmas

section Lemmas2

variable {R E IPD TT : Type}

theorem markTracks_error_iff (trackRefs : List TrackRef) (members : List TrackRef)
    (td : List IndexedTrackData) (e : CmsException) :
    markTracks trackRefs members td = .error e
      ↔ e = trackNotFound ∧ ∃ t ∈ members, t ∉ trackRefs := by
  induction members generalizing td with
  | nil => simp [markTracks]
  | cons t rest ih =>
    by_cases ht : t ∈ trackRefs
    · have hne : ¬ List.indexOf t trackRefs = trackRefs.length := by
        rw [List.indexOf_eq_length]; exact fun h => h ht
      simp only [markTracks, hne, if_false, ih]
      simp [ht]
    · have heq : List.indexOf t trackRefs = trackRefs.length := by
        rw [List.indexOf_eq_length]; exact ht
      simp only [markTracks, heq, if_true]
      constructor
      · intro h
        injection h with h
        exact ⟨h.symm, t, by simp, ht⟩
      · rintro ⟨h, _⟩
        rw [h]

theorem markTracks_ok (trackRefs : List TrackRef) (members : List TrackRef)
    (td : List IndexedTrackData) (hmem : ∀ t ∈ members, t ∈ trackRefs) :
    ∃ td', markTracks trackRefs members td = .ok td' ∧ td'.length = td.length ∧
      ∀ i, td'[i]? =
        if (∃ t ∈ members, List.indexOf t trackRefs = i)
          then td[i]?.map (fun d => (d.1, TrackData.mk Status.trackAssociatedToVertex))
          else td[i]? := by
  induction members generalizing td with
  | nil => exact ⟨td, by simp [markTracks]⟩
  | cons t rest ih =>
    have ht : t ∈ trackRefs := hmem t (by simp)
    have hne : ¬ List.indexOf t trackRefs = trackRefs.length := by
      rw [List.indexOf_eq_length]; exact fun h => h ht
    obtain ⟨td', h1, h2, h3⟩ :=
      ih (setSvStatus .trackAssociatedToVertex (List.indexOf t trackRefs) td)
        (fun u hu => hmem u (by simp [hu]))
    refine ⟨td', ?_, ?_, ?_⟩
    · simp only [markTracks, hne, if_false]
      exact h1
    · rw [h2, setSvStatus_length]
    · intro i
      rw [h3 i, setSvStatus_getElem?]
      by_cases hr : ∃ u ∈ rest, List.indexOf u trackRefs = i
      · have hc : ∃ u ∈ t :: rest, List.indexOf u trackRefs = i := by
          obtain ⟨u, hu, hui⟩ := hr
          exact ⟨u, by simp [hu], hui⟩
        rw [if_pos hr, if_pos hc]
        by_cases hi : i = List.indexOf t trackRefs
        · rw [if_pos hi]
          cases td[i]? <;> simp
        · rw [if_neg hi]
      · rw [if_neg hr]
        by_cases hi : i = List.indexOf t trackRefs
        · have hc : ∃ u ∈ t :: rest, List.indexOf u trackRefs = i :=
            ⟨t, by simp, hi.symm⟩
          rw [if_pos hi, if_pos hc]
        · have hc : ¬ ∃ u ∈ t :: rest, List.indexOf u trackRefs = i := by
            rintro ⟨u, hu, hui⟩
            rcases List.mem_cons.mp hu with rfl | hu
            · exact hi hui.symm
            · exact hr ⟨u, hu, hui⟩
          rw [if_neg hi, if_neg hc]

/-! ### `removeCopyIf` -/

theorem removeCopyIf_snd {α β ε : Type} (f : α → Except ε β) (pred : β → Bool)
    (l : List α) (out : List β) :
    (removeCopyIf f pred l out).2
      = out ++ (((l.takeWhile (returns f)).filterMap (valueOf f)).filter (fun b => !pred b)) := by
  induction l generalizing out with
  | nil => simp [removeCopyIf]
  | cons a rest ih =>
    cases hfa : f a with
    | error e =>
      simp [removeCopyIf, hfa, returns, List.takeWhile]
    | ok b =>
      have hr : returns f a = true := by simp [returns, hfa]
      have hv : valueOf f a = some b := by simp [valueOf, hfa]
      cases hp : pred b with
      | true =>
        simp [removeCopyIf, hfa, hp, ih, List.takeWhile, hr, List.filterMap_cons, hv]
      | false =>
        simp [removeCopyIf, hfa, hp, ih, List.takeWhile, hr, List.filterMap_cons, hv]

theorem takeWhile_returns_of_all {α β ε : Type} (f : α → Except ε β) (l : List α)
    (h : ∀ a ∈ l, ∃ b, f a = .ok b) : l.takeWhile (returns f) = l := by
  induction l with
  | nil => rfl
  | cons a rest ih =>
    obtain ⟨b, hb⟩ := h a (by simp)
    have hr : returns f a = true := by simp [returns, hb]
    simp [List.takeWhile, hr, ih (fun x hx => h x (by simp [hx]))]

end Lemmas2

theorem indexOf_eq_iff_isFirstPosition (l : List TrackRef) (t : TrackRef) (i : Nat)
    (h : t ∈ l) : List.indexOf t l = i ↔ IsFirstPosition l t i := by
  induction l generalizing i with
  | nil => simp at h
  | cons a l ih =>
    by_cases hat : a = t
    · subst hat
      rw [List.indexOf_cons_self]
      constructor
      · intro h0
        subst h0
        exact ⟨by simp, fun j hj => absurd hj (Nat.not_lt_zero j)⟩
      · rintro ⟨_, h2⟩
        cases i with
        | zero => rfl
        | succ m => exact absurd (by simp) (h2 0 (Nat.succ_pos m))
    · have htl : t ∈ l := by
        rcases List.mem_cons.mp h with h | h
        · exact absurd h.symm hat
        · exact h
      rw [List.indexOf_cons_ne _ hat]
      cases i with
      | zero =>
        constructor
        · intro h0; exact absurd h0 (Nat.succ_ne_zero _)
        · rintro ⟨h1, _⟩
          simp at h1
          exact absurd h1 hat
      | succ m =>
        rw [Nat.succ_inj', ih m htl]
        constructor
        · rintro ⟨h1, h2⟩
          refine ⟨by simpa using h1, ?_⟩
          intro j hj
          cases j with
          | zero => simpa using hat
          | succ k => simpa using h2 k (by omega)
        · rintro ⟨h1, h2⟩
          refine ⟨by simpa using h1, ?_⟩
          intro j hj
          simpa using h2 (j + 1) (by omega)

section Lemmas3

variable {R E IPD TT : Type} [Sub R] [Neg R] [One R] [Inhabited IPD]

theorem processJet_none (self : SecondaryVertexProducer R E IPD TT)
    (lib : Collaborators R E TT) (jet : TrackIPTagInfo R E IPD) (idx : Nat)
    (h : bestSV self lib jet = none) :
    processJet self lib jet idx
      = .ok ⟨initialTrackData self lib jet, [], (SVs self lib jet).length, idx⟩ := by
  simp [processJet, h]

theorem processJet_some (self : SecondaryVertexProducer R E IPD TT)
    (lib : Collaborators R E TT) (jet : TrackIPTagInfo R E IPD) (idx : Nat)
    (best : SecondaryVertex R E) (h : bestSV self lib jet = some best) :
    processJet self lib jet idx
      = match markTracks (trackRefs self jet) best.tracks (initialTrackData self lib jet) with
        | .error e => .error e
        | .ok trackData =>
          .ok ⟨trackData,
            [{ vertex := best
               dist2d := best.dist2d
               dist3d := best.dist3d
               direction := ⟨best.x - (primaryVertex lib jet).x,
                             best.y - (primaryVertex lib jet).y,
                             best.z - (primaryVertex lib jet).z⟩ }],
            (SVs self lib jet).length, idx⟩ := by
  simp [processJet, h]

theorem processJet_error_iff (self : SecondaryVertexProducer R E IPD TT)
    (lib : Collaborators R E TT) (jet : TrackIPTagInfo R E IPD) (idx : Nat) (e : CmsException) :
    processJet self lib jet idx = .error e
      ↔ e = trackNotFound ∧
          ∃ best, bestSV self lib jet = some best ∧ ∃ t ∈ best.tracks, t ∉ trackRefs self jet := by
  cases hb : bestSV self lib jet with
  | none => simp [processJet_none self lib jet idx hb]
  | some best =>
    rw [processJet_some self lib jet idx best hb]
    cases hm : markTracks (trackRefs self jet) best.tracks (initialTrackData self lib jet) with
    | error e' =>
      have := (markTracks_error_iff _ _ _ e').mp hm
      constructor
      · intro h
        injection h with h
        subst h
        exact ⟨this.1, best, rfl, this.2⟩
      · rintro ⟨h, _⟩
        rw [h, this.1]
    | ok td =>
      constructor
      · intro h; cases h
      · rintro ⟨_, b, hb', hbad⟩
        injection hb' with hb'
        subst hb'
        have := (markTracks_error_iff (trackRefs self jet) best.tracks
          (initialTrackData self lib jet) trackNotFound).mpr ⟨rfl, hbad⟩
        rw [hm] at this
        cases this

theorem processJet_ref (self : SecondaryVertexProducer R E IPD TT)
    (lib : Collaborators R E TT) (jet : TrackIPTagInfo R E IPD) (idx : Nat)
    (tagInfo : SecondaryVertexTagInfo R E) (h : processJet self lib jet idx = .ok tagInfo) :
    tagInfo.trackIPTagInfoRef = idx ∧ tagInfo.vertexCandidates = (SVs self lib jet).length := by
  cases hb : bestSV self lib jet with
  | none =>
    rw [processJet_none self lib jet idx hb] at h
    injection h with h
    subst h
    exact ⟨rfl, rfl⟩
  | some best =>
    rw [processJet_some self lib jet idx best hb] at h
    cases hm : markTracks (trackRefs self jet) best.tracks (initialTrackData self lib jet) with
    | error e' => rw [hm] at h; cases h
    | ok td =>
      rw [hm] at h
      injection h with h
      subst h
      exact ⟨rfl, rfl⟩

theorem produceLoop_error_iff (self : SecondaryVertexProducer R E IPD TT)
    (lib : Collaborators R E TT) (jets : List (TrackIPTagInfo R E IPD)) (idx : Nat)
    (acc : List (SecondaryVertexTagInfo R E)) (e : CmsException) :
    produceLoop self lib jets idx acc = .error e
      ↔ e = trackNotFound ∧
          ∃ jet ∈ jets, ∃ best, bestSV self lib jet = some best ∧
            ∃ t ∈ best.tracks, t ∉ trackRefs self jet := by
  induction jets generalizing idx acc with
  | nil => simp [produceLoop]
  | cons jet rest ih =>
    cases hp : processJet self lib jet idx with
    | error e' =>
      have hj := (processJet_error_iff self lib jet idx e').mp hp
      simp only [produceLoop, hp]
      constructor
      · intro h
        injection h with h
        subst h
        exact ⟨hj.1, jet, by simp, hj.2⟩
      · rintro ⟨h, _⟩
        rw [h, hj.1]
    | ok tagInfo =>
      have hgood : ¬ ∃ best, bestSV self lib jet = some best ∧
          ∃ t ∈ best.tracks, t ∉ trackRefs self jet := by
        intro hbad
        have := (processJet_error_iff self lib jet idx trackNotFound).mpr ⟨rfl, hbad⟩
        rw [hp] at this
        cases this
      simp only [produceLoop, hp, ih]
      constructor
      · rintro ⟨h, j, hj, hbad⟩
        exact ⟨h, j, by simp [hj], hbad⟩
      · rintro ⟨h, j, hj, hbad⟩
        rcases List.mem_cons.mp hj with rfl | hj
        · exact absurd hbad hgood
        · exact ⟨h, j, hj, hbad⟩

theorem produceLoop_ok (self : SecondaryVertexProducer R E IPD TT)
    (lib : Collaborators R E TT) (jets : List (TrackIPTagInfo R E IPD)) (idx : Nat)
    (acc out : List (SecondaryVertexTagInfo R E))
    (h : produceLoop self lib jets idx acc = .ok out) :
    out.length = acc.length + jets.length ∧
      (∀ (k : Nat) (a : SecondaryVertexTagInfo R E), acc[k]? = some a → out[k]? = some a) ∧
      ∀ (k : Nat) (jet : TrackIPTagInfo R E IPD), jets[k]? = some jet →
        ∃ tagInfo, out[acc.length + k]? = some tagInfo ∧
          processJet self lib jet (idx + k) = .ok tagInfo := by
  induction jets generalizing idx acc with
  | nil =>
    simp only [produceLoop] at h
    injection h with h
    subst h
    simp
  | cons jet rest ih =>
    cases hp : processJet self lib jet idx with
    | error e' => simp [produceLoop, hp] at h
    | ok tagInfo =>
      simp only [produceLoop, hp] at h
      obtain ⟨h1, h2, h3⟩ := ih (idx + 1) (acc ++ [tagInfo]) h
      refine ⟨?_, ?_, ?_⟩
      · rw [h1]; simp; omega
      · intro k a hk
        apply h2
        have hlt : k < acc.length := (List.getElem?_eq_some_iff.mp hk).1
        rw [List.getElem?_append_left hlt]
        exact hk
      · intro k j hk
        cases k with
        | zero =>
          simp at hk
          subst hk
          have hk0 := h2 acc.length tagInfo (by simp)
          exact ⟨tagInfo, by simpa using hk0, by simpa using hp⟩
        | succ m =>
          simp at hk
          obtain ⟨t, ht1, ht2⟩ := h3 m j hk
          refine ⟨t, ?_, ?_⟩
          · have : (acc ++ [tagInfo]).length + m = acc.length + (m + 1) := by simp; omega
            rw [← this]; exact ht1
          · have : idx + 1 + m = idx + (m + 1) := by omega
            rw [← this]; exact ht2

end Lemmas3

section ProduceFacts

variable {R E IPD TT : Type} [Neg R] [One R] [Inhabited IPD]

theorem produce_of_loop_ok [Sub R] (self : SecondaryVertexProducer R E IPD TT)
    (lib : Collaborators R E TT) (event : Event R E IPD)
    (tagInfos : List (SecondaryVertexTagInfo R E))
    (h : produceLoop self lib event.trackIPTagInfos 0 [] = .ok tagInfos) :
    produce self lib event = (.ok (), event.put tagInfos) := by
  simp [produce, h]

theorem produce_of_loop_error [Sub R] (self : SecondaryVertexProducer R E IPD TT)
    (lib : Collaborators R E TT) (event : Event R E IPD) (e : CmsException)
    (h : produceLoop self lib event.trackIPTagInfos 0 [] = .error e) :
    produce self lib event = (.error e, event) := by
  simp [produce, h]

theorem SVs_of_fit_error (self : SecondaryVertexProducer R E IPD TT)
    (lib : Collaborators R E TT) (jet : TrackIPTagInfo R E IPD) (e : VertexException)
    (hfit : self.vertexReco
      (fitTracks (initialTrackData self lib jet) (transientTracks self lib jet)) = .error e) :
    SVs self lib jet = [] := by
  simp [SVs, fitVertices, hfit]

theorem SVs_of_fit_ok (self : SecondaryVertexProducer R E IPD TT)
    (lib : Collaborators R E TT) (jet : TrackIPTagInfo R E IPD)
    (fittedSVs : List (Vertex R E))
    (hfit : self.vertexReco
      (fitTracks (initialTrackData self lib jet) (transientTracks self lib jet)) = .ok fittedSVs) :
    SVs self lib jet
      = (((fittedSVs.takeWhile
              (returns (fun sv =>
                lib.secondaryVertex (primaryVertex lib jet) sv (jetDir jet) self.withPVError))).filterMap
            (valueOf (fun sv =>
                lib.secondaryVertex (primaryVertex lib jet) sv (jetDir jet) self.withPVError))).filter
          (fun sv => self.vertexFilter (primaryVertex lib jet) sv (jetDir jet))) := by
  simp only [SVs, fitVertices, hfit, removeCopyIf_snd, List.nil_append]
  have hb : (SVBuilder.call lib ⟨primaryVertex lib jet, jetDir jet, self.withPVError⟩)
      = (fun sv => lib.secondaryVertex (primaryVertex lib jet) sv (jetDir jet) self.withPVError) := by
    funext sv; rfl
  have hf : (fun b => !SVFilter.call ⟨self.vertexFilter, primaryVertex lib jet, jetDir jet⟩ b)
      = (fun sv => self.vertexFilter (primaryVertex lib jet) sv (jetDir jet)) := by
    funext sv; simp [SVFilter.call]
  rw [hb, hf]

end ProduceFacts

section CandidateFacts

variable {R E IPD TT : Type} [Neg R] [One R] [Inhabited IPD]

theorem takeWhile_returns_append {α β ε : Type} (f : α → Except ε β) (before after : List α)
    (bad : α) (e : ε) (hbefore : ∀ a ∈ before, ∃ b, f a = .ok b) (hbad : f bad = .error e) :
    (before ++ bad :: after).takeWhile (returns f) = before := by
  induction before with
  | nil => simp [List.takeWhile, returns, hbad]
  | cons a rest ih =>
    obtain ⟨b, hb⟩ := hbefore a (by simp)
    have hr : returns f a = true := by simp [returns, hb]
    simp [List.takeWhile, hr, ih (fun x hx => hbefore x (by simp [hx]))]

end CandidateFacts

theorem indexOf_of_nodup (l : List TrackRef) (t : TrackRef) (i : Nat) (hnodup : l.Nodup)
    (h : l[i]? = some t) : List.indexOf t l = i := by
  have hmem : t ∈ l := List.getElem?_mem h
  rw [indexOf_eq_iff_isFirstPosition l t i hmem]
  refine ⟨h, ?_⟩
  intro j hj hjt
  obtain ⟨hi, hit⟩ := List.getElem?_eq_some_iff.mp h
  obtain ⟨hj', hjt'⟩ := List.getElem?_eq_some_iff.mp hjt
  have heq : l[j] = l[i] := hjt'.trans hit.symm
  have := hnodup.getElem_inj_iff.mp heq
  omega

/-! ## The claims -/

/-- C9. `getSortCriterium` throws exactly on the names other than "sip3dSig",
"prob3d", "sip2dSig", "prob2d" and "sip2dVal", and what it throws is an
`InvalidArgument` exception; on those five names it returns `IP3DSig`, `Prob3D`,
`IP2DSig`, `Prob2D` and `IP2DValue`; two names with the same criterion are the same
name. -/
theorem getSortCriterium_spec (name : String) :
    ((∃ e, getSortCriterium name = .error e)
        ↔ name ∉ ["sip3dSig", "prob3d", "sip2dSig", "prob2d", "sip2dVal"]) ∧
    (∀ e, getSortCriterium name = .error e → e.category = "InvalidArgument") ∧
    getSortCriterium "sip3dSig" = .ok .IP3DSig ∧
    getSortCriterium "prob3d" = .ok .Prob3D ∧
    getSortCriterium "sip2dSig" = .ok .IP2DSig ∧
    getSortCriterium "prob2d" = .ok .Prob2D ∧
    getSortCriterium "sip2dVal" = .ok .IP2DValue ∧
    (∀ other c, getSortCriterium name = .ok c → getSortCriterium other = .ok c →
      name = other) := by
  refine ⟨?_, ?_, by decide, by decide, by decide, by decide, by decide, ?_⟩
  · unfold getSortCriterium
    split_ifs <;> simp_all
  · intro e
    unfold getSortCriterium
    split_ifs <;> simp
    rintro rfl
    rfl
  · intro other c
    unfold getSortCriterium
    split_ifs <;> simp_all <;> (intro h; subst h; simp)

section Claims

variable {R E IPD TT : Type} [Sub R] [Neg R] [One R] [Inhabited IPD]

/-- C1. When the vertex fit of the jet at position `i` of the event throws a
`VertexException`, and the vertex selector returns no vertex on an empty list,
the processing of that jet does not throw: it yields the tag info with the track
table as the track selector built it, no vertex data, zero vertex candidates and
reference `i`; every entry of that table is `trackSelected` or
`trackUsedForVertexFit`; and whenever `produce` returns, this tag info is entry `i`
of the collection put into the event. -/
theorem fit_failure_yields_empty_tag_info (self : SecondaryVertexProducer R E IPD TT)
    (lib : Collaborators R E TT) (event : Event R E IPD) (i : Nat)
    (jet : TrackIPTagInfo R E IPD) (e : VertexException)
    (hjet : event.trackIPTagInfos[i]? = some jet)
    (hfit : self.vertexReco
      (fitTracks (initialTrackData self lib jet) (transientTracks self lib jet)) = .error e)
    (hsel : self.vertexSelector [] = none) :
    processJet self lib jet i = .ok ⟨initialTrackData self lib jet, [], 0, i⟩ ∧
    (∀ d ∈ initialTrackData self lib jet,
      d.2.svStatus = Status.trackSelected ∨ d.2.svStatus = Status.trackUsedForVertexFit) ∧
    ((produce self lib event).1 = .ok () →
      ∃ tagInfos, (produce self lib event).2.secondaryVertexTagInfos = some tagInfos ∧
        tagInfos[i]? = some ⟨initialTrackData self lib jet, [], 0, i⟩) := by
  have hSVs := SVs_of_fit_error self lib jet e hfit
  have hbest : bestSV self lib jet = none := by
    simp [bestSV, hSVs, hsel]
  have hproc : ∀ idx, processJet self lib jet idx
      = .ok ⟨initialTrackData self lib jet, [], 0, idx⟩ := by
    intro idx
    rw [processJet_none self lib jet idx hbest, hSVs]
    rfl
  refine ⟨hproc i, ?_, ?_⟩
  · intro d hd
    rw [initialTrackData_eq] at hd
    simp only [List.mem_map] at hd
    obtain ⟨k, _, rfl⟩ := hd
    simp only [statusAt]
    split
    · exact Or.inr rfl
    · exact Or.inl rfl
  · intro hok
    cases hl : produceLoop self lib event.trackIPTagInfos 0 [] with
    | error e' =>
      rw [produce_of_loop_error self lib event e' hl] at hok
      cases hok
    | ok tagInfos =>
      rw [produce_of_loop_ok self lib event tagInfos hl]
      refine ⟨tagInfos, rfl, ?_⟩
      obtain ⟨_, _, h3⟩ := produceLoop_ok self lib _ 0 [] tagInfos hl
      obtain ⟨t, ht1, ht2⟩ := h3 i jet hjet
      simp only [List.length_nil, Nat.zero_add] at ht1 ht2
      rw [hproc i] at ht2
      injection ht2 with ht2
      rw [ht1, ← ht2]

/-- C1, at the event of three jets whose middle jet has a single qualifying
track. -/
theorem fit_failure_yields_empty_tag_info_witness :
    (produce (Example.producer Example.fitOne) Example.lib Example.event).1 = .ok () ∧
    ∃ tagInfos,
      (produce (Example.producer Example.fitOne) Example.lib
        Example.event).2.secondaryVertexTagInfos = some tagInfos ∧
      tagInfos[1]? = some
        ⟨[(0, ⟨Status.trackUsedForVertexFit⟩), (1, ⟨Status.trackSelected⟩)], [], 0, 1⟩ :=
  ⟨by decide,
   (fit_failure_yields_empty_tag_info (Example.producer Example.fitOne) Example.lib
      Example.event 1 Example.jetSingle ⟨"fewer than two significant tracks"⟩
      rfl (by decide) (by decide)).2.2 (by decide)⟩

/-- C2. When `produce` does not throw `TrackNotFound` on an event, it returns and
puts into the event a collection with as many tag infos as the event has jets,
the tag info at position `i` referring to jet `i`. -/
theorem produce_one_tag_info_per_jet (self : SecondaryVertexProducer R E IPD TT)
    (lib : Collaborators R E TT) (event : Event R E IPD)
    (h : (produce self lib event).1 ≠ .error trackNotFound) :
    ∃ tagInfos,
      (produce self lib event).1 = .ok () ∧
      (produce self lib event).2.secondaryVertexTagInfos = some tagInfos ∧
      tagInfos.length = event.trackIPTagInfos.length ∧
      ∀ (i : Nat) (tagInfo : SecondaryVertexTagInfo R E),
        tagInfos[i]? = some tagInfo → tagInfo.trackIPTagInfoRef = i := by
  cases hl : produceLoop self lib event.trackIPTagInfos 0 [] with
  | error e' =>
    have he := ((produceLoop_error_iff self lib _ 0 [] e').mp hl).1
    rw [produce_of_loop_error self lib event e' hl, he] at h
    exact absurd rfl h
  | ok tagInfos =>
    rw [produce_of_loop_ok self lib event tagInfos hl]
    obtain ⟨h1, _, h3⟩ := produceLoop_ok self lib _ 0 [] tagInfos hl
    refine ⟨tagInfos, rfl, rfl, by simpa using h1, ?_⟩
    intro i tagInfo hi
    have hlt : i < event.trackIPTagInfos.length := by
      have := (List.getElem?_eq_some_iff.mp hi).1
      simpa [h1] using this
    obtain ⟨t, ht1, ht2⟩ := h3 i event.trackIPTagInfos[i] (List.getElem?_eq_getElem hlt)
    simp only [List.length_nil, Nat.zero_add] at ht1 ht2
    rw [hi] at ht1
    injection ht1 with ht1
    subst ht1
    exact (processJet_ref self lib _ i tagInfo ht2).1

/-- C2, at the event of three jets whose middle jet has a degenerate fit. -/
theorem produce_one_tag_info_per_jet_witness :
    (produce (Example.producer Example.fitOne) Example.lib Example.event).1
        ≠ .error trackNotFound ∧
    ∃ tagInfos,
      (produce (Example.producer Example.fitOne) Example.lib Example.event).1 = .ok () ∧
      (produce (Example.producer Example.fitOne) Example.lib
        Example.event).2.secondaryVertexTagInfos = some tagInfos ∧
      tagInfos.length = 3 ∧
      ∀ (i : Nat) (tagInfo : SecondaryVertexTagInfo Int Bool),
        tagInfos[i]? = some tagInfo → tagInfo.trackIPTagInfoRef = i :=
  ⟨by decide,
   produce_one_tag_info_per_jet (Example.producer Example.fitOne) Example.lib Example.event
     (by decide)⟩

/-- C7. When the fit of a jet returns and a secondary vertex is constructed from
every fitted vertex, the vector `SVs` is the list of the constructed vertices, in
the order of the fit, restricted to those the vertex filter accepts; the number of
vertex candidates of the jet's tag info is the length of that list; and with two
fitted vertices of which the filter accepts exactly one, that number is 1. -/
theorem accepted_candidates_are_the_filtered_builds
    (self : SecondaryVertexProducer R E IPD TT) (lib : Collaborators R E TT)
    (jet : TrackIPTagInfo R E IPD) (fittedSVs : List (Vertex R E))
    (hfit : self.vertexReco
      (fitTracks (initialTrackData self lib jet) (transientTracks self lib jet)) = .ok fittedSVs)
    (hbuild : ∀ v ∈ fittedSVs, ∃ sv,
      lib.secondaryVertex (primaryVertex lib jet) v (jetDir jet) self.withPVError = .ok sv) :
    SVs self lib jet
      = (fittedSVs.filterMap
            (valueOf (fun v =>
              lib.secondaryVertex (primaryVertex lib jet) v (jetDir jet) self.withPVError))).filter
          (fun sv => self.vertexFilter (primaryVertex lib jet) sv (jetDir jet)) ∧
    (∀ idx tagInfo, processJet self lib jet idx = .ok tagInfo →
      tagInfo.vertexCandidates = (SVs self lib jet).length) ∧
    (∀ a b sva svb, fittedSVs = [a, b] →
      lib.secondaryVertex (primaryVertex lib jet) a (jetDir jet) self.withPVError = .ok sva →
      lib.secondaryVertex (primaryVertex lib jet) b (jetDir jet) self.withPVError = .ok svb →
      self.vertexFilter (primaryVertex lib jet) sva (jetDir jet)
        ≠ self.vertexFilter (primaryVertex lib jet) svb (jetDir jet) →
      (SVs self lib jet).length = 1) := by
  have hS := SVs_of_fit_ok self lib jet fittedSVs hfit
  rw [takeWhile_returns_of_all _ _ hbuild] at hS
  refine ⟨hS, ?_, ?_⟩
  · intro idx tagInfo h
    exact (processJet_ref self lib jet idx tagInfo h).2
  · intro a b sva svb hab ha hb hne
    rw [hS, hab]
    simp only [List.filterMap_cons, List.filterMap_nil, valueOf, ha, hb]
    cases h1 : self.vertexFilter (primaryVertex lib jet) sva (jetDir jet) <;>
      cases h2 : self.vertexFilter (primaryVertex lib jet) svb (jetDir jet) <;>
      simp_all [List.filter]

/-- C7, at a jet whose fit returns two vertices of which the second has too few
tracks for the filter: one candidate. -/
theorem accepted_candidates_are_the_filtered_builds_witness :
    (SVs (Example.producer Example.fitTwo) Example.lib Example.jetThree).length = 1 ∧
    (processJet (Example.producer Example.fitTwo) Example.lib Example.jetThree 0).toOption.map
        (fun tagInfo => tagInfo.vertexCandidates) = some 1 :=
  ⟨(accepted_candidates_are_the_filtered_builds (Example.producer Example.fitTwo) Example.lib
      Example.jetThree
      [Example.vertexAt 1 2 3 true [10, 11], Example.vertexAt 4 5 6 true [10]]
      (by decide)
      (by
        intro v hv
        simp only [List.mem_cons, List.mem_singleton, List.not_mem_nil, or_false] at hv
        rcases hv with rfl | rfl <;> exact ⟨_, rfl⟩)).2.2 _ _ _ _ rfl rfl rfl (by decide),
   by decide⟩

/-- C3 fails as stated: the fit returns a vertex whose secondary vertex cannot be
constructed, followed by one that is constructed and passes the filter.  The
candidates built from the other fit results are that one vertex, but `SVs` is
empty and the tag info records zero candidates. -/
theorem later_fit_results_are_dropped :
    (Example.producer Example.fitBadThenGood).vertexReco
        (fitTracks
          (initialTrackData (Example.producer Example.fitBadThenGood) Example.lib
            Example.jetThree)
          (transientTracks (Example.producer Example.fitBadThenGood) Example.lib
            Example.jetThree))
      = .ok [Example.vertexAt 1 2 3 false [10, 11], Example.vertexAt 4 5 6 true [10, 11]] ∧
    Example.lib.secondaryVertex (Example.vertexAt 1 1 1 true [])
        (Example.vertexAt 1 2 3 false [10, 11]) ⟨0, 1, 0⟩ true
      = .error ⟨"covariance not positive definite"⟩ ∧
    (([Example.vertexAt 4 5 6 true [10, 11]].filterMap
          (valueOf (fun v =>
            Example.lib.secondaryVertex (Example.vertexAt 1 1 1 true []) v ⟨0, 1, 0⟩ true))).filter
        (fun sv => (Example.producer Example.fitBadThenGood).vertexFilter
          (Example.vertexAt 1 1 1 true []) sv ⟨0, 1, 0⟩)).length = 1 ∧
    SVs (Example.producer Example.fitBadThenGood) Example.lib Example.jetThree = [] ∧
    (processJet (Example.producer Example.fitBadThenGood) Example.lib
        Example.jetThree 0).toOption.map (fun tagInfo => tagInfo.vertexCandidates) = some 0 := by
  decide

/-- C3, amended.  When the fit of a jet returns and the construction of a
secondary vertex throws a `VertexException` at some fitted vertex, having returned
for all fitted vertices before it, the vector `SVs` is the list of the vertices
constructed from the fitted vertices before the failing one, in the order of the
fit, restricted to those the vertex filter accepts; the number of vertex
candidates of the jet's tag info is the length of that list. -/
theorem construction_failure_keeps_earlier_candidates
    (self : SecondaryVertexProducer R E IPD TT) (lib : Collaborators R E TT)
    (jet : TrackIPTagInfo R E IPD) (before after : List (Vertex R E)) (bad : Vertex R E)
    (e : VertexException)
    (hfit : self.vertexReco
      (fitTracks (initialTrackData self lib jet) (transientTracks self lib jet))
        = .ok (before ++ bad :: after))
    (hbefore : ∀ v ∈ before, ∃ sv,
      lib.secondaryVertex (primaryVertex lib jet) v (jetDir jet) self.withPVError = .ok sv)
    (hbad : lib.secondaryVertex (primaryVertex lib jet) bad (jetDir jet) self.withPVError
      = .error e) :
    SVs self lib jet
      = (before.filterMap
            (valueOf (fun v =>
              lib.secondaryVertex (primaryVertex lib jet) v (jetDir jet) self.withPVError))).filter
          (fun sv => self.vertexFilter (primaryVertex lib jet) sv (jetDir jet)) ∧
    (∀ idx tagInfo, processJet self lib jet idx = .ok tagInfo →
      tagInfo.vertexCandidates
        = ((before.filterMap
            (valueOf (fun v =>
              lib.secondaryVertex (primaryVertex lib jet) v (jetDir jet) self.withPVError))).filter
          (fun sv => self.vertexFilter (primaryVertex lib jet) sv (jetDir jet))).length) := by
  have hS := SVs_of_fit_ok self lib jet (before ++ bad :: after) hfit
  rw [takeWhile_returns_append _ before after bad e hbefore hbad] at hS
  refine ⟨hS, ?_⟩
  intro idx tagInfo h
  rw [(processJet_ref self lib jet idx tagInfo h).2, hS]

/-- C3, amended, at a jet whose fit returns a good vertex, a degenerate one and
another good one: the first alone is a candidate. -/
theorem construction_failure_keeps_earlier_candidates_witness :
    SVs (Example.producer Example.fitGoodBadGood) Example.lib Example.jetThree
      = [{ toVertex := Example.vertexAt 1 2 3 true [10, 11]
           dist2d := ⟨0, 1⟩
           dist3d := ⟨2, 1⟩ }] ∧
    (processJet (Example.producer Example.fitGoodBadGood) Example.lib
        Example.jetThree 0).toOption.map (fun tagInfo => tagInfo.vertexCandidates) = some 1 :=
  ⟨(construction_failure_keeps_earlier_candidates (Example.producer Example.fitGoodBadGood)
      Example.lib Example.jetThree [Example.vertexAt 1 2 3 true [10, 11]]
      [Example.vertexAt 4 5 6 true [10, 11]] (Example.vertexAt 0 0 0 false [10, 11])
      ⟨"covariance not positive definite"⟩ (by decide)
      (by
        intro v hv
        simp only [List.mem_singleton] at hv
        subst hv
        exact ⟨_, rfl⟩)
      (by decide)).1.trans
      (by decide),
   by decide⟩

/-- C8. The primary vertex of a jet is the referenced one when the jet has a
primary-vertex reference and the beam-spot vertex otherwise; the secondary
vertices of the jet are constructed and filtered with that vertex; and when a
best vertex is chosen, the single vertex record of the jet's tag info holds that
vertex and, as direction, the three differences of its coordinates and those of
that primary vertex. -/
theorem primary_vertex_and_flight_direction (self : SecondaryVertexProducer R E IPD TT)
    (lib : Collaborators R E TT) (jet : TrackIPTagInfo R E IPD) :
    (∀ v, jet.primaryVertex = some v → primaryVertex lib jet = v) ∧
    (jet.primaryVertex = none → primaryVertex lib jet = beamSpotPV lib) ∧
    (∀ fittedSVs,
      self.vertexReco
          (fitTracks (initialTrackData self lib jet) (transientTracks self lib jet))
        = .ok fittedSVs →
      SVs self lib jet
        = (removeCopyIf
            (fun sv => lib.secondaryVertex (primaryVertex lib jet) sv (jetDir jet) self.withPVError)
            (fun sv => !self.vertexFilter (primaryVertex lib jet) sv (jetDir jet))
            fittedSVs []).2) ∧
    (∀ idx best tagInfo, bestSV self lib jet = some best →
      processJet self lib jet idx = .ok tagInfo →
      ∃ vertexData, tagInfo.svData = [vertexData] ∧ vertexData.vertex = best ∧
        vertexData.direction.x = best.x - (primaryVertex lib jet).x ∧
        vertexData.direction.y = best.y - (primaryVertex lib jet).y ∧
        vertexData.direction.z = best.z - (primaryVertex lib jet).z) := by
  refine ⟨?_, ?_, ?_, ?_⟩
  · intro v hv
    simp [primaryVertex, hv]
  · intro hv
    simp [primaryVertex, hv]
  · intro fittedSVs hfit
    simp only [SVs, fitVertices, hfit]
    rfl
  · intro idx best tagInfo hbest h
    rw [processJet_some self lib jet idx best hbest] at h
    cases hm : markTracks (trackRefs self jet) best.tracks (initialTrackData self lib jet) with
    | error e' => rw [hm] at h; cases h
    | ok td =>
      rw [hm] at h
      injection h with h
      subst h
      exact ⟨_, rfl, rfl, rfl, rfl, rfl⟩

/-- C8, at a jet without primary-vertex reference: the direction is taken from
the beam-spot vertex at the origin. -/
theorem primary_vertex_and_flight_direction_witness :
    primaryVertex Example.lib Example.jetSwapped = beamSpotPV Example.lib ∧
    (processJet (Example.producer Example.fitForeign) Example.lib
        Example.jetSwapped 0).toOption.map
      (fun tagInfo => tagInfo.svData.map (fun vertexData => vertexData.direction))
      = some [⟨1 - 0, 2 - 0, 3 - 0⟩] :=
  ⟨(primary_vertex_and_flight_direction (Example.producer Example.fitForeign) Example.lib
      Example.jetSwapped).2.1 rfl,
   by decide⟩

/-- C6. `produce` throws `TrackNotFound` exactly when, for some jet of the event,
the best vertex has a track that is not in the jet's sorted track list; `produce`
throws nothing else, and when it throws the event is as it was: no collection has
been put into it. -/
theorem produce_throws_track_not_found_iff (self : SecondaryVertexProducer R E IPD TT)
    (lib : Collaborators R E TT) (event : Event R E IPD) :
    ((produce self lib event).1 = .error trackNotFound
      ↔ ∃ jet ∈ event.trackIPTagInfos, ∃ best, bestSV self lib jet = some best ∧
          ∃ t ∈ best.tracks, t ∉ trackRefs self jet) ∧
    trackNotFound.category = "TrackNotFound" ∧
    (∀ e, (produce self lib event).1 = .error e →
      e = trackNotFound ∧ (produce self lib event).2 = event) := by
  cases hl : produceLoop self lib event.trackIPTagInfos 0 [] with
  | error e' =>
    have he := (produceLoop_error_iff self lib _ 0 [] e').mp hl
    rw [produce_of_loop_error self lib event e' hl]
    refine ⟨?_, rfl, ?_⟩
    · constructor
      · intro _; exact he.2
      · intro _; rw [he.1]
    · intro e h
      injection h with h
      exact ⟨by rw [← h, he.1], rfl⟩
  | ok tagInfos =>
    rw [produce_of_loop_ok self lib event tagInfos hl]
    refine ⟨?_, rfl, ?_⟩
    · constructor
      · intro h; cases h
      · intro hbad
        have := (produceLoop_error_iff self lib event.trackIPTagInfos 0 []
          trackNotFound).mpr ⟨rfl, hbad⟩
        rw [hl] at this
        cases this
    · intro e h
      cases h

/-- C6, at an event whose fit names a track 99 that no jet has. -/
theorem produce_throws_track_not_found_iff_witness :
    produce (Example.producer Example.fitUnknown) Example.lib Example.event
      = (.error trackNotFound, Example.event) ∧
    (∃ jet ∈ Example.event.trackIPTagInfos, ∃ best,
      bestSV (Example.producer Example.fitUnknown) Example.lib jet = some best ∧
        ∃ t ∈ best.tracks, t ∉ trackRefs (Example.producer Example.fitUnknown) jet) :=
  ⟨by rfl,
   (produce_throws_track_not_found_iff (Example.producer Example.fitUnknown) Example.lib
      Example.event).1.mp (by decide)⟩

/-- C10. When a best vertex is chosen for a jet and all its tracks are in the
jet's sorted track list, the jet is processed without exception, and the track
table of its tag info has the length of the table built first; entry `i` of both
tables holds index `i`; the final status of entry `i` is
`trackAssociatedToVertex` exactly when `i` is the first position in the sorted
track list of some track of the best vertex; and every other entry has the status
it had in the table built first. -/
theorem final_track_table (self : SecondaryVertexProducer R E IPD TT)
    (lib : Collaborators R E TT) (jet : TrackIPTagInfo R E IPD) (idx : Nat)
    (best : SecondaryVertex R E) (hbest : bestSV self lib jet = some best)
    (hmem : ∀ t ∈ best.tracks, t ∈ trackRefs self jet) :
    ∃ tagInfo, processJet self lib jet idx = .ok tagInfo ∧
      tagInfo.trackData.length = (initialTrackData self lib jet).length ∧
      ∀ (i : Nat) (d : IndexedTrackData), (initialTrackData self lib jet)[i]? = some d →
        d.1 = i ∧
        ∃ d', tagInfo.trackData[i]? = some d' ∧ d'.1 = i ∧
          (d'.2.svStatus = Status.trackAssociatedToVertex
            ↔ ∃ t ∈ best.tracks, IsFirstPosition (trackRefs self jet) t i) ∧
          ((¬ ∃ t ∈ best.tracks, IsFirstPosition (trackRefs self jet) t i) →
            d'.2.svStatus = d.2.svStatus) := by
  obtain ⟨td', h1, h2, h3⟩ :=
    markTracks_ok (trackRefs self jet) best.tracks (initialTrackData self lib jet) hmem
  have hfirst : ∀ i, (∃ t ∈ best.tracks, List.indexOf t (trackRefs self jet) = i)
      ↔ ∃ t ∈ best.tracks, IsFirstPosition (trackRefs self jet) t i := by
    intro i
    constructor
    · rintro ⟨t, ht, hi⟩
      exact ⟨t, ht, (indexOf_eq_iff_isFirstPosition _ t i (hmem t ht)).mp hi⟩
    · rintro ⟨t, ht, hi⟩
      exact ⟨t, ht, (indexOf_eq_iff_isFirstPosition _ t i (hmem t ht)).mpr hi⟩
  refine ⟨_, by rw [processJet_some self lib jet idx best hbest, h1], h2, ?_⟩
  intro i d hd
  obtain ⟨_, hdi⟩ := initialTrackData_getElem? self lib jet i d hd
  have hne : d.2.svStatus ≠ Status.trackAssociatedToVertex := by
    rw [hdi]; exact statusAt_ne_associated _ _ _ _
  have hidx : d.1 = i := by rw [hdi]
  refine ⟨hidx, ?_⟩
  have h3i := h3 i
  rw [hd] at h3i
  by_cases hex : ∃ t ∈ best.tracks, List.indexOf t (trackRefs self jet) = i
  · rw [if_pos hex] at h3i
    refine ⟨_, h3i, hidx, ?_, ?_⟩
    · exact ⟨fun _ => (hfirst i).mp hex, fun _ => rfl⟩
    · intro hno
      exact absurd ((hfirst i).mp hex) hno
  · rw [if_neg hex] at h3i
    refine ⟨_, h3i, hidx, ?_, ?_⟩
    · constructor
      · intro h; exact absurd h hne
      · intro h; exact absurd ((hfirst i).mpr h) hex
    · intro _; rfl

/-- C10, at a jet of three tracks whose best vertex holds the first two. -/
theorem final_track_table_witness :
    bestSV (Example.producer Example.fitOne) Example.lib Example.jetThree
      = some { toVertex := Example.vertexAt 1 2 3 true [10, 11]
               dist2d := ⟨0, 1⟩
               dist3d := ⟨2, 1⟩ } ∧
    (processJet (Example.producer Example.fitOne) Example.lib
        Example.jetThree 0).toOption.map (fun tagInfo => tagInfo.trackData)
      = some [(0, ⟨Status.trackAssociatedToVertex⟩), (1, ⟨Status.trackAssociatedToVertex⟩),
              (2, ⟨Status.trackSelected⟩)] ∧
    ∃ tagInfo,
      processJet (Example.producer Example.fitOne) Example.lib Example.jetThree 0
        = .ok tagInfo ∧
      tagInfo.trackData.length
        = (initialTrackData (Example.producer Example.fitOne) Example.lib
            Example.jetThree).length :=
  ⟨by decide, by decide,
   (final_track_table (Example.producer Example.fitOne) Example.lib Example.jetThree 0
      { toVertex := Example.vertexAt 1 2 3 true [10, 11]
        dist2d := ⟨0, 1⟩
        dist3d := ⟨2, 1⟩ }
      (by decide) (by decide)).imp (fun _ h => ⟨h.1, h.2.1⟩)⟩

/-- C5 fails as stated: a jet with tracks 10 and 11 of which only track 10
qualifies and is given to the fit; the fitted vertex names both tracks, and the
entry of track 11, `trackSelected` in the table built first, ends as
`trackAssociatedToVertex`. -/
theorem unoffered_track_becomes_associated :
    initialTrackData (Example.producer Example.fitForeign) Example.lib Example.jetSingle
      = [(0, ⟨Status.trackUsedForVertexFit⟩), (1, ⟨Status.trackSelected⟩)] ∧
    fitTracks
        (initialTrackData (Example.producer Example.fitForeign) Example.lib Example.jetSingle)
        (transientTracks (Example.producer Example.fitForeign) Example.lib Example.jetSingle)
      = [10] ∧
    (processJet (Example.producer Example.fitForeign) Example.lib
        Example.jetSingle 0).toOption.map (fun tagInfo => tagInfo.trackData)
      = some [(0, ⟨Status.trackAssociatedToVertex⟩), (1, ⟨Status.trackAssociatedToVertex⟩)] := by
  decide

/-- C5, amended.  When every track of the best vertex of a jet is one of the
tracks given to the fit (it stands in the sorted track list at a position whose
entry was built as `trackUsedForVertexFit`) and no track stands twice in the
sorted track list, the jet is processed without exception and every entry of the
final track table with status `trackAssociatedToVertex` had status
`trackUsedForVertexFit` in the table built first. -/
theorem associated_tracks_were_used_for_fit (self : SecondaryVertexProducer R E IPD TT)
    (lib : Collaborators R E TT) (jet : TrackIPTagInfo R E IPD) (idx : Nat)
    (hoffered : ∀ best, bestSV self lib jet = some best → ∀ t ∈ best.tracks,
      ∃ (i : Nat) (d : IndexedTrackData), (trackRefs self jet)[i]? = some t ∧
        (initialTrackData self lib jet)[i]? = some d ∧
        d.2.svStatus = Status.trackUsedForVertexFit)
    (hnodup : (trackRefs self jet).Nodup) :
    ∃ tagInfo, processJet self lib jet idx = .ok tagInfo ∧
      ∀ (i : Nat) (d' : IndexedTrackData), tagInfo.trackData[i]? = some d' →
        d'.2.svStatus = Status.trackAssociatedToVertex →
        ∃ d, (initialTrackData self lib jet)[i]? = some d ∧
          d.2.svStatus = Status.trackUsedForVertexFit := by
  cases hb : bestSV self lib jet with
  | none =>
    refine ⟨_, processJet_none self lib jet idx hb, ?_⟩
    intro i d' hd' hs
    obtain ⟨_, hdi⟩ := initialTrackData_getElem? self lib jet i d' hd'
    rw [hdi] at hs
    exact absurd hs (statusAt_ne_associated _ _ _ _)
  | some best =>
    have hmem : ∀ t ∈ best.tracks, t ∈ trackRefs self jet := by
      intro t ht
      obtain ⟨i, _, hi, _⟩ := hoffered best hb t ht
      exact List.getElem?_mem hi
    obtain ⟨td', h1, _, h3⟩ :=
      markTracks_ok (trackRefs self jet) best.tracks (initialTrackData self lib jet) hmem
    refine ⟨_, by rw [processJet_some self lib jet idx best hb, h1], ?_⟩
    intro i d' hd' hs
    have h3i := h3 i
    simp only at hd'
    rw [hd'] at h3i
    by_cases hex : ∃ t ∈ best.tracks, List.indexOf t (trackRefs self jet) = i
    · obtain ⟨t, ht, hti⟩ := hex
      obtain ⟨j, d, hj, hd, hs'⟩ := hoffered best hb t ht
      have hji : j = i := by
        rw [← hti, indexOf_of_nodup _ t j hnodup hj]
      subst hji
      exact ⟨d, hd, hs'⟩
    · rw [if_neg hex] at h3i
      obtain ⟨_, hdi⟩ := initialTrackData_getElem? self lib jet i d' h3i.symm
      rw [hdi] at hs
      exact absurd hs (statusAt_ne_associated _ _ _ _)

/-- C5, amended, at a jet of three tracks of which the first two qualify and
form the best vertex. -/
theorem associated_tracks_were_used_for_fit_witness :
    initialTrackData (Example.producer Example.fitOne) Example.lib Example.jetThree
      = [(0, ⟨Status.trackUsedForVertexFit⟩), (1, ⟨Status.trackUsedForVertexFit⟩),
         (2, ⟨Status.trackSelected⟩)] ∧
    (trackRefs (Example.producer Example.fitOne) Example.jetThree).Nodup ∧
    ∃ tagInfo,
      processJet (Example.producer Example.fitOne) Example.lib Example.jetThree 0
        = .ok tagInfo ∧
      ∀ (i : Nat) (d' : IndexedTrackData), tagInfo.trackData[i]? = some d' →
        d'.2.svStatus = Status.trackAssociatedToVertex →
        ∃ d, (initialTrackData (Example.producer Example.fitOne) Example.lib
            Example.jetThree)[i]? = some d ∧
          d.2.svStatus = Status.trackUsedForVertexFit :=
  ⟨by decide, by decide,
   associated_tracks_were_used_for_fit (Example.producer Example.fitOne) Example.lib
     Example.jetThree 0
     (by
       intro best hb t ht
       have hbest : bestSV (Example.producer Example.fitOne) Example.lib Example.jetThree
           = some { toVertex := Example.vertexAt 1 2 3 true [10, 11]
                    dist2d := ⟨0, 1⟩
                    dist3d := ⟨2, 1⟩ } := by decide
       rw [hbest] at hb
       injection hb with hb
       subst hb
       simp only [Example.vertexAt, List.mem_cons, List.mem_singleton, List.not_mem_nil,
         or_false] at ht
       rcases ht with rfl | rfl
       · exact ⟨0, _, rfl, rfl, rfl⟩
       · exact ⟨1, _, rfl, rfl, rfl⟩)
     (by decide)⟩

/-- C4, on a jet whose sort order differs from the order of its track list: tracks
10 and 11 have significance 1 and 9, and the sorted list is 11, 10.  The track
selector accepts track 11 with its own record and rejects track 10 with its own
record, yet entry 0 (track 11) is built as `trackSelected` and entry 1 (track 10)
as `trackUsedForVertexFit`: the selector was given the record at the sorted
position, not the record of the track. -/
theorem selector_is_given_the_record_at_the_sorted_position :
    indices (Example.producer Example.fitOne) Example.jetSwapped = [1, 0] ∧
    trackRefs (Example.producer Example.fitOne) Example.jetSwapped = [11, 10] ∧
    Example.jetSwapped.selectedTracks[1]? = some 11 ∧
    Example.jetSwapped.impactParameterData[1]? = some 9 ∧
    (Example.producer Example.fitOne).trackSelector 11 9 = true ∧
    Example.jetSwapped.selectedTracks[0]? = some 10 ∧
    Example.jetSwapped.impactParameterData[0]? = some 1 ∧
    (Example.producer Example.fitOne).trackSelector 10 1 = false ∧
    initialTrackData (Example.producer Example.fitOne) Example.lib Example.jetSwapped
      = [(0, ⟨Status.trackSelected⟩), (1, ⟨Status.trackUsedForVertexFit⟩)] := by
  decide

end Claims

end SVP
